import Mathlib

/-!
Verification of the leave-fractionation calculation core of the MyCCSA
repository (package `fractionnement`): calendar utilities (French public
holidays, Easter by the Gauss congruence algorithm, workday predicates and
day counters), the half-day period counter, the fractionation calculator
and the RTT calculator.

Dates are modelled as in the Python `datetime.date` module: a proleptic
Gregorian triple (year, month, day).  Day-level arithmetic (adding days,
iterating over a range, comparing and testing membership in a holiday set)
acts on the ordinal number of a date, exactly the value returned by
`date.toordinal()` in Python (day 1 = 0001-01-01); for valid dates the
ordinal encoding is faithful to date equality and ordering.  The Django
cache around the holiday list is pure memoisation of a pure function and is
modelled by direct recomputation.  Python `Decimal` arithmetic on half-day
quantities is exact (all values are multiples of 0.5) and is modelled by
rational numbers.
-/

namespace MyCCSA

/-- Gregorian leap-year test, as in Python `calendar.isleap`. -/
def isLeap (y : Nat) : Bool := (y % 4 == 0 && y % 100 != 0) || (y % 400 == 0)

/-- Number of days of month `m` of year `y` (months numbered 1..12). -/
def daysInMonth (y m : Nat) : Nat :=
  if m = 2 then (if isLeap y then 29 else 28)
  else if m = 4 ∨ m = 6 ∨ m = 9 ∨ m = 11 then 30
  else 31

/-- A calendar date, as the Python `datetime.date` value (year, month, day). -/
structure Date where
  year : Nat
  month : Nat
  day : Nat
deriving DecidableEq, Repr

/-- Validity of a date: the constraint enforced by the `datetime.date`
constructor (positive year, month 1..12, day within the month). -/
def Date.Valid (d : Date) : Prop :=
  1 ≤ d.year ∧ 1 ≤ d.month ∧ d.month ≤ 12 ∧ 1 ≤ d.day ∧ d.day ≤ daysInMonth d.year d.month

instance (d : Date) : Decidable d.Valid := by
  unfold Date.Valid; infer_instance

/-- Days in all years before year `y`, as in CPython `_days_before_year`. -/
def daysBeforeYear (y : Nat) : Nat :=
  365 * (y - 1) + (y - 1) / 4 - (y - 1) / 100 + (y - 1) / 400

/-- Days in year `y` before the first day of month `m`
(`_days_before_month` in CPython, written out per month). -/
def daysBeforeMonth (y m : Nat) : Nat :=
  let l : Nat := if isLeap y then 1 else 0
  match m with
  | 1 => 0
  | 2 => 31
  | 3 => 59 + l
  | 4 => 90 + l
  | 5 => 120 + l
  | 6 => 151 + l
  | 7 => 181 + l
  | 8 => 212 + l
  | 9 => 243 + l
  | 10 => 273 + l
  | 11 => 304 + l
  | 12 => 334 + l
  | _ => 0

/-- The proleptic Gregorian ordinal of a date, as `date.toordinal()`
(0001-01-01 has ordinal 1). -/
def Date.toOrdinal (d : Date) : Nat :=
  daysBeforeYear d.year + daysBeforeMonth d.year d.month + d.day

/-- Weekday of an ordinal, Python convention: 0 = Monday .. 6 = Sunday
(ordinal 1, 0001-01-01, is a Monday, so `weekday = (ordinal + 6) % 7`,
which is what `date.weekday()` returns). -/
def weekdayOfOrdinal (n : Nat) : Nat := (n + 6) % 7

/-- `est_jour_ouvre` (utils.py): Monday..Friday; the argument is the
ordinal of the date tested. -/
def est_jour_ouvre (n : Nat) : Bool := weekdayOfOrdinal n < 5

/-- `est_jour_ouvrable` (utils.py): Monday..Saturday. -/
def est_jour_ouvrable (n : Nat) : Bool := weekdayOfOrdinal n < 6

/-- Python comparison `a <= b` on `datetime.date`, lexicographic on
(year, month, day); on valid dates it agrees with ordinal comparison. -/
def pyDateLe (a b : Date) : Bool :=
  a.year < b.year ||
  (a.year == b.year &&
    (a.month < b.month || (a.month == b.month && a.day ≤ b.day)))

/-- Python `min(a, b)` on dates. -/
def pyDateMin (a b : Date) : Date := if pyDateLe a b then a else b

/-- Python `max(a, b)` on dates. -/
def pyDateMax (a b : Date) : Date := if pyDateLe b a then a else b

/-! `calculer_paques` (utils.py): Easter Sunday of a year by the Gauss
congruence algorithm.  Each local variable of the source becomes a named
definition over the year; all divisions and remainders of the source are
Python floor divisions and remainders with positive divisors, which are
exactly `/` and `%` on `Int` (Euclidean division). -/

/-- Source local `a = annee % 19`. -/
def paques_a (y : Int) : Int := y % 19

/-- Source local `b = annee // 100`. -/
def paques_b (y : Int) : Int := y / 100

/-- Source local `c = annee % 100`. -/
def paques_c (y : Int) : Int := y % 100

/-- Source local `d = b // 4`. -/
def paques_d (y : Int) : Int := paques_b y / 4

/-- Source local `e = b % 4`. -/
def paques_e (y : Int) : Int := paques_b y % 4

/-- Source local `f = (b + 8) // 25`. -/
def paques_f (y : Int) : Int := (paques_b y + 8) / 25

/-- Source local `g = (b - f + 1) // 3`. -/
def paques_g (y : Int) : Int := (paques_b y - paques_f y + 1) / 3

/-- Source local `h = (19 * a + b - d - g + 15) % 30`. -/
def paques_h (y : Int) : Int :=
  (19 * paques_a y + paques_b y - paques_d y - paques_g y + 15) % 30

/-- Source local `i = c // 4`. -/
def paques_i (y : Int) : Int := paques_c y / 4

/-- Source local `k = c % 4`. -/
def paques_k (y : Int) : Int := paques_c y % 4

/-- Source local `l = (32 + 2 * e + 2 * i - h - k) % 7`. -/
def paques_l (y : Int) : Int :=
  (32 + 2 * paques_e y + 2 * paques_i y - paques_h y - paques_k y) % 7

/-- Source local `m = (a + 11 * h + 22 * l) // 451`. -/
def paques_m (y : Int) : Int :=
  (paques_a y + 11 * paques_h y + 22 * paques_l y) / 451

/-- Source local `mois = (h + l - 7 * m + 114) // 31`. -/
def paques_mois (y : Int) : Int :=
  (paques_h y + paques_l y - 7 * paques_m y + 114) / 31

/-- Source local `jour = ((h + l - 7 * m + 114) % 31) + 1`. -/
def paques_jour (y : Int) : Int :=
  (paques_h y + paques_l y - 7 * paques_m y + 114) % 31 + 1

/-- `calculer_paques` (utils.py): `date(annee, mois, jour)`. -/
def calculer_paques (annee : Nat) : Date :=
  ⟨annee, (paques_mois annee).toNat, (paques_jour annee).toNat⟩

/-- `get_jours_feries_fixes` (utils.py): the 8 fixed French public
holidays of a year. -/
def get_jours_feries_fixes (annee : Nat) : List Date :=
  [⟨annee, 1, 1⟩, ⟨annee, 5, 1⟩, ⟨annee, 5, 8⟩, ⟨annee, 7, 14⟩,
   ⟨annee, 8, 15⟩, ⟨annee, 11, 1⟩, ⟨annee, 11, 11⟩, ⟨annee, 12, 25⟩]

/-- `get_jours_feries` (utils.py): the fixed holidays plus Easter Sunday,
Easter Monday, Ascension (Easter + 39) and Whit Monday (Easter + 50),
sorted; the result is the list of the ordinals of the holiday dates
(`paques + timedelta(days=k)` adds `k` to the ordinal).  The cache wrapper
is pure memoisation and is modelled by recomputation. -/
def get_jours_feries (annee : Nat) : List Nat :=
  let paques := (calculer_paques annee).toOrdinal
  (((get_jours_feries_fixes annee).map Date.toOrdinal) ++
    [paques, paques + 1, paques + 39, paques + 50]).mergeSort (· ≤ ·)

/-- Day-by-day counting loop shared by the two counters of utils.py:
starting at ordinal `lo`, scan `len` consecutive days and count those
satisfying `p` (the Python loop `while current <= date_fin` runs
`toOrdinal(date_fin) + 1 - toOrdinal(date_debut)` iterations). -/
def countFrom (lo : Nat) (len : Nat) (p : Nat → Bool) : Nat :=
  match len with
  | 0 => 0
  | len + 1 => (if p lo then 1 else 0) + countFrom (lo + 1) len p

/-- `compter_jours_ouvres` (utils.py): inclusive scan counting Mon..Fri
days that are not holidays of the selected year (Python membership in the
set of holiday dates is membership of the ordinal in the holiday list).
`annee = none` models the Python default `annee=None`. -/
def compter_jours_ouvres (date_debut date_fin : Date) (exclure_feries : Bool)
    (annee : Option Nat) : Nat :=
  let a := annee.getD date_debut.year
  let jours_feries : List Nat := if exclure_feries then get_jours_feries a else []
  countFrom date_debut.toOrdinal (date_fin.toOrdinal + 1 - date_debut.toOrdinal)
    (fun n => est_jour_ouvre n && !(jours_feries.contains n))

/-- `compter_jours_ouvrables` (utils.py): same scan with the Mon..Sat
predicate. -/
def compter_jours_ouvrables (date_debut date_fin : Date) (exclure_feries : Bool)
    (annee : Option Nat) : Nat :=
  let a := annee.getD date_debut.year
  let jours_feries : List Nat := if exclure_feries then get_jours_feries a else []
  countFrom date_debut.toOrdinal (date_fin.toOrdinal + 1 - date_debut.toOrdinal)
    (fun n => est_jour_ouvrable n && !(jours_feries.contains n))

/-- `compter_jours_periode` (calcul_service.py): full-day count adjusted
by half days at both ends; Decimal arithmetic on multiples of 0.5 is exact
and modelled by rationals. -/
def compter_jours_periode (date_debut date_fin : Date)
    (jours_ouvres_ou_ouvrables : String) (exclure_feries : Bool)
    (annee : Option Nat) (debut_type fin_type : String) : ℚ :=
  let a := annee.getD date_debut.year
  let jours_pleins : Nat :=
    if jours_ouvres_ou_ouvrables == "ouvrables" then
      compter_jours_ouvrables date_debut date_fin exclure_feries (some a)
    else
      compter_jours_ouvres date_debut date_fin exclure_feries (some a)
  let total₀ : ℚ := jours_pleins
  let debut_compte₀ : Bool :=
    if jours_ouvres_ou_ouvrables == "ouvrables" then est_jour_ouvrable date_debut.toOrdinal
    else est_jour_ouvre date_debut.toOrdinal
  let debut_compte : Bool :=
    if exclure_feries && debut_compte₀ then
      if (get_jours_feries a).contains date_debut.toOrdinal then false else debut_compte₀
    else debut_compte₀
  let total₁ : ℚ :=
    if debut_compte && debut_type == "apres_midi" then total₀ - (1 : ℚ)/2 else total₀
  let fin_compte₀ : Bool :=
    if jours_ouvres_ou_ouvrables == "ouvrables" then est_jour_ouvrable date_fin.toOrdinal
    else est_jour_ouvre date_fin.toOrdinal
  let fin_compte : Bool :=
    if exclure_feries && fin_compte₀ then
      if (get_jours_feries a).contains date_fin.toOrdinal then false else fin_compte₀
    else fin_compte₀
  let total₂ : ℚ :=
    if fin_compte && fin_type == "matin" then total₁ - (1 : ℚ)/2 else total₁
  max 0 total₂

/-- `ANNEE_MIN` (constants.py). -/
def ANNEE_MIN : Nat := 2020

/-- `ANNEE_MAX` (constants.py). -/
def ANNEE_MAX : Nat := 2100

/-- `HEURES_SEMAINE_MIN` (constants.py), as an exact rational. -/
def HEURES_SEMAINE_MIN : ℚ := 35

/-- `DUREE_LEGALE_ANNUELLE` (constants.py). -/
def DUREE_LEGALE_ANNUELLE : Nat := 1607

/-- `SEMAINES_ANNUELLES` (constants.py). -/
def SEMAINES_ANNUELLES : Nat := 52

/-- `calculer_jours_fractionnement` (calcul_service.py): the 0/1/2
fractionation award from the whole-day count outside the main period. -/
def calculer_jours_fractionnement (jours_hors_periode : Int) : Nat :=
  if jours_hors_periode < 5 then 0
  else if 5 ≤ jours_hors_periode ∧ jours_hors_periode ≤ 7 then 1
  else 2

/-- The `ParametresAnnee` record (models.py), reduced to the field the
calculator reads; `jours_ouvres_ou_ouvrables` is one of the strings
"ouvres" or "ouvrables". -/
structure ParametresAnnee where
  jours_ouvres_ou_ouvrables : String
deriving DecidableEq, Repr

/-- The `CycleHebdomadaire` record (models.py), reduced to the fields
relevant here: weekly hours, work quota and the day-counting mode. -/
structure CycleHebdomadaire where
  heures_semaine : ℚ
  quotite_travail : ℚ
  jours_ouvres_ou_ouvrables : String
deriving DecidableEq, Repr

/-- The `PeriodeConge` record (models.py), reduced to the fields the
calculator reads. -/
structure PeriodeConge where
  date_debut : Date
  debut_type : String
  date_fin : Date
  fin_type : String
  type_conge : String
  annee_civile : Nat
deriving DecidableEq, Repr

/-- The loop body of `get_jours_hors_periode_principale` for one period:
classify the period by month overlap with the main period (May 1 to
Oct 31) and count the days falling outside it.  The `try/except` around
this body in the source only guards runtime exceptions of the pure date
arithmetic, which cannot occur, so the skip branch is dead. -/
def jours_hors_pour_periode (jours_type : String) (annee : Nat)
    (periode : PeriodeConge) : ℚ :=
  let date_debut := periode.date_debut
  let date_fin := periode.date_fin
  let debut_type := periode.debut_type
  let fin_type := periode.fin_type
  let periode_entiere_hors : Bool :=
    ((date_debut.month ≥ 11 && date_fin.month ≥ 11)
      || (date_debut.month ≤ 4 && date_fin.month ≤ 4)
      || (date_debut.month ≥ 11 && date_fin.month ≤ 4))
    && !(date_debut.month ≥ 5 && date_debut.month ≤ 10)
  if periode_entiere_hors then
    compter_jours_periode date_debut date_fin jours_type true (some annee)
      debut_type fin_type
  else if date_debut.month ≥ 5 && date_fin.month ≤ 10 then
    0
  else
    let partie_avril : ℚ :=
      if date_debut.month ≤ 4 then
        let fin_avril : Date := ⟨annee, 4, 30⟩
        let date_fin_sous_periode := pyDateMin date_fin fin_avril
        let fin_type_sous := if date_fin_sous_periode = date_fin then fin_type else "apres_midi"
        compter_jours_periode date_debut date_fin_sous_periode jours_type true
          (some annee) debut_type fin_type_sous
      else 0
    let partie_novembre : ℚ :=
      if date_fin.month ≥ 11 then
        let debut_novembre : Date := ⟨annee, 11, 1⟩
        let date_debut_sous_periode := pyDateMax date_debut debut_novembre
        let debut_type_sous :=
          if date_debut_sous_periode = date_debut then debut_type else "matin"
        compter_jours_periode date_debut_sous_periode date_fin jours_type true
          (some annee) debut_type_sous fin_type
      else 0
    partie_avril + partie_novembre

/-- The error message raised for an out-of-bounds year. -/
def annee_invalide_msg (annee : Nat) : String :=
  s!"Année invalide: {annee} (doit être entre {ANNEE_MIN} et {ANNEE_MAX})"

/-- Python `int(...)` applied to a Decimal: truncation toward zero. -/
def pyTrunc (q : ℚ) : Int := q.num / (q.den : Int)

/-- `get_jours_hors_periode_principale` (calcul_service.py).  The record
store is passed explicitly: `parametres` is the zero-or-one
`ParametresAnnee` row for (user, year) and `periodes` the stored
`PeriodeConge` rows of the user; the Django query filters them on
`annee_civile == annee` and `type_conge == "annuel"`.  Raising
`ValueError` is modelled by `Except.error`. -/
def get_jours_hors_periode_principale (parametres : Option ParametresAnnee)
    (periodes : List PeriodeConge) (annee : Nat) : Except String Int :=
  if annee < ANNEE_MIN || annee > ANNEE_MAX then
    .error (annee_invalide_msg annee)
  else
    let jours_type : String :=
      match parametres with
      | some p => p.jours_ouvres_ou_ouvrables
      | none => "ouvres"
    let filtrees := periodes.filter
      (fun p => p.annee_civile == annee && p.type_conge == "annuel")
    let total : ℚ :=
      filtrees.foldl (fun acc p => acc + jours_hors_pour_periode jours_type annee p) 0
    .ok (pyTrunc total)

/-- Result record of `calculer_fractionnement_complet`. -/
structure ResultatFractionnement where
  jours_hors_periode : Int
  jours_fractionnement : Nat
  annee : Nat
deriving DecidableEq, Repr

/-- `calculer_fractionnement_complet` (calcul_service.py): composes the
two functions above; the `except ValueError: raise` handler re-raises the
error unchanged, modelled by propagating `Except.error`. -/
def calculer_fractionnement_complet (parametres : Option ParametresAnnee)
    (periodes : List PeriodeConge) (annee : Nat) :
    Except String ResultatFractionnement :=
  match get_jours_hors_periode_principale parametres periodes annee with
  | .error e => .error e
  | .ok jours_hors_periode =>
      .ok ⟨jours_hors_periode, calculer_jours_fractionnement jours_hors_periode, annee⟩

/-- Round-half-to-even on rationals, the behaviour of the Python built-in
`round` on a `Decimal`. -/
def roundHalfEven (q : ℚ) : Int :=
  let f := ⌊q⌋
  let r := q - f
  if r < (1 : ℚ)/2 then f
  else if (1 : ℚ)/2 < r then f + 1
  else if f % 2 = 0 then f else f + 1

/-- `calculer_rtt_annuels` (calcul_service.py).  Decimal arithmetic is
modelled by exact rationals (the 28-digit Decimal context of the division
is exact rational division up to a deviation far below every rounding
boundary reached by these inputs). -/
def calculer_rtt_annuels (heures_semaine quotite_travail : ℚ) : Int :=
  if heures_semaine ≤ HEURES_SEMAINE_MIN then 0
  else
    let heures_annuelles := heures_semaine * (SEMAINES_ANNUELLES : ℚ)
    let heures_supplementaires := heures_annuelles - (DUREE_LEGALE_ANNUELLE : ℚ)
    if heures_supplementaires ≤ 0 then 0
    else roundHalfEven (heures_supplementaires / heures_semaine * quotite_travail)

/-- Modelled from the spec: the day-counting-convention fallback chain
claimed in the design notes (YearParameters mode when present, otherwise
the WeeklyCycle mode when present, otherwise the "workdays" default);
this resolver is not present in the source, which never consults the
cycle, and is stated here for comparison with the implemented behaviour. -/
def resolution_convention_chaine (parametres : Option ParametresAnnee)
    (cycle : Option CycleHebdomadaire) : String :=
  match parametres with
  | some p => p.jours_ouvres_ou_ouvrables
  | none =>
    match cycle with
    | some c => c.jours_ouvres_ou_ouvrables
    | none => "ouvres"

/-- `get_jours_hors_periode_principale` as it would behave if the
day-counting convention were resolved by the claimed fallback chain
(identical body, convention from `resolution_convention_chaine`). -/
def get_jours_hors_selon_chaine (parametres : Option ParametresAnnee)
    (cycle : Option CycleHebdomadaire) (periodes : List PeriodeConge)
    (annee : Nat) : Except String Int :=
  if annee < ANNEE_MIN || annee > ANNEE_MAX then
    .error (annee_invalide_msg annee)
  else
    let jours_type := resolution_convention_chaine parametres cycle
    let filtrees := periodes.filter
      (fun p => p.annee_civile == annee && p.type_conge == "annuel")
    let total : ℚ :=
      filtrees.foldl (fun acc p => acc + jours_hors_pour_periode jours_type annee p) 0
    .ok (pyTrunc total)

/-! Helper lemmas. -/

/-- The Gauss intermediate `a` lies in `[0, 19)`. -/
lemma paques_a_bounds (y : Int) : 0 ≤ paques_a y ∧ paques_a y < 19 :=
  ⟨Int.emod_nonneg _ (by norm_num), Int.emod_lt_of_pos _ (by norm_num)⟩

/-- The Gauss intermediate `h` lies in `[0, 30)`. -/
lemma paques_h_bounds (y : Int) : 0 ≤ paques_h y ∧ paques_h y < 30 :=
  ⟨Int.emod_nonneg _ (by norm_num), Int.emod_lt_of_pos _ (by norm_num)⟩

/-- The Gauss intermediate `l` lies in `[0, 7)`. -/
lemma paques_l_bounds (y : Int) : 0 ≤ paques_l y ∧ paques_l y < 7 :=
  ⟨Int.emod_nonneg _ (by norm_num), Int.emod_lt_of_pos _ (by norm_num)⟩

/-- The Gauss formula lands in March with a day at most 31, or in April
with a day at most 25 (the `m` correction excludes April 26). -/
lemma paques_mois_jour_cases (y : Int) :
    (paques_mois y = 3 ∧ 1 ≤ paques_jour y ∧ paques_jour y ≤ 31) ∨
    (paques_mois y = 4 ∧ 1 ≤ paques_jour y ∧ paques_jour y ≤ 25) := by
  have ha := paques_a_bounds y
  have hh := paques_h_bounds y
  have hl := paques_l_bounds y
  have hm : paques_m y = (paques_a y + 11 * paques_h y + 22 * paques_l y) / 451 := rfl
  unfold paques_mois paques_jour
  omega

/-- The month/day cases of `calculer_paques`, at the `Date` level. -/
lemma calculer_paques_cases (annee : Nat) :
    ((calculer_paques annee).month = 3 ∧ 1 ≤ (calculer_paques annee).day ∧
      (calculer_paques annee).day ≤ 31) ∨
    ((calculer_paques annee).month = 4 ∧ 1 ≤ (calculer_paques annee).day ∧
      (calculer_paques annee).day ≤ 25) := by
  have := paques_mois_jour_cases (annee : Int)
  dsimp [calculer_paques]
  omega

lemma calculer_paques_year (annee : Nat) : (calculer_paques annee).year = annee := rfl

/-- Arithmetic characterisation of the leap-year test. -/
lemma isLeap_iff (y : Nat) :
    isLeap y = true ↔ ((y % 4 = 0 ∧ ¬ y % 100 = 0) ∨ y % 400 = 0) := by
  simp [isLeap]

set_option maxHeartbeats 3000000 in
/-- One more year before the epoch adds 365 days plus the leap day. -/
lemma daysBeforeYear_succ (y : Nat) (hy : 1 ≤ y) :
    daysBeforeYear (y + 1) = daysBeforeYear y + 365 + (if isLeap y then 1 else 0) := by
  by_cases hL : isLeap y = true
  · have harith := (isLeap_iff y).mp hL
    simp only [hL, if_true]
    unfold daysBeforeYear
    omega
  · have harith : ¬ ((y % 4 = 0 ∧ ¬ y % 100 = 0) ∨ y % 400 = 0) :=
      fun hcon => hL ((isLeap_iff y).mpr hcon)
    simp only [Bool.not_eq_true] at hL
    simp only [hL, Bool.false_eq_true, if_false]
    unfold daysBeforeYear
    omega

lemma countFrom_one (lo : Nat) (p : Nat → Bool) :
    countFrom lo 1 p = if p lo then 1 else 0 := by
  simp [countFrom]

lemma countFrom_add (a : Nat) (lo b : Nat) (p : Nat → Bool) :
    countFrom lo (a + b) p = countFrom lo a p + countFrom (lo + a) b p := by
  induction a generalizing lo with
  | zero => simp [countFrom]
  | succ n ih =>
      have h1 : n + 1 + b = (n + b) + 1 := by omega
      rw [h1]
      show (if p lo then 1 else 0) + countFrom (lo + 1) (n + b) p = _
      have h2 : lo + 1 + n = lo + (n + 1) := by omega
      rw [ih, h2, ← Nat.add_assoc]
      rfl

lemma daysBeforeMonth_3 (annee : Nat) :
    daysBeforeMonth annee 3 = 59 + (if isLeap annee then 1 else 0) := rfl

lemma daysBeforeMonth_4 (annee : Nat) :
    daysBeforeMonth annee 4 = 90 + (if isLeap annee then 1 else 0) := rfl

lemma paques_toOrdinal_bounds (annee : Nat) :
    daysBeforeYear annee + 60 ≤ (calculer_paques annee).toOrdinal ∧
    (calculer_paques annee).toOrdinal ≤
      daysBeforeYear annee + 115 + (if isLeap annee then 1 else 0) := by
  have hc := calculer_paques_cases annee
  unfold Date.toOrdinal
  rw [calculer_paques_year]
  rcases hc with ⟨hm, hd1, hd2⟩ | ⟨hm, hd1, hd2⟩ <;> rw [hm] <;>
    [rw [daysBeforeMonth_3]; rw [daysBeforeMonth_4]] <;> omega

lemma jours_feries_range (annee : Nat) (o : Nat) (ho : o ∈ get_jours_feries annee) :
    Date.toOrdinal ⟨annee, 1, 1⟩ ≤ o ∧ o ≤ Date.toOrdinal ⟨annee, 12, 31⟩ := by
  have hp := paques_toOrdinal_bounds annee
  have e1 : Date.toOrdinal ⟨annee, 1, 1⟩ = daysBeforeYear annee + 0 + 1 := rfl
  have e2 : Date.toOrdinal ⟨annee, 5, 1⟩ =
      daysBeforeYear annee + (120 + (if isLeap annee then 1 else 0)) + 1 := rfl
  have e3 : Date.toOrdinal ⟨annee, 5, 8⟩ =
      daysBeforeYear annee + (120 + (if isLeap annee then 1 else 0)) + 8 := rfl
  have e4 : Date.toOrdinal ⟨annee, 7, 14⟩ =
      daysBeforeYear annee + (181 + (if isLeap annee then 1 else 0)) + 14 := rfl
  have e5 : Date.toOrdinal ⟨annee, 8, 15⟩ =
      daysBeforeYear annee + (212 + (if isLeap annee then 1 else 0)) + 15 := rfl
  have e6 : Date.toOrdinal ⟨annee, 11, 1⟩ =
      daysBeforeYear annee + (304 + (if isLeap annee then 1 else 0)) + 1 := rfl
  have e7 : Date.toOrdinal ⟨annee, 11, 11⟩ =
      daysBeforeYear annee + (304 + (if isLeap annee then 1 else 0)) + 11 := rfl
  have e8 : Date.toOrdinal ⟨annee, 12, 25⟩ =
      daysBeforeYear annee + (334 + (if isLeap annee then 1 else 0)) + 25 := rfl
  have e9 : Date.toOrdinal ⟨annee, 12, 31⟩ =
      daysBeforeYear annee + (334 + (if isLeap annee then 1 else 0)) + 31 := rfl
  unfold get_jours_feries at ho
  simp only [List.mem_mergeSort, get_jours_feries_fixes, List.map_cons, List.map_nil,
    List.mem_append, List.mem_cons, List.not_mem_nil, or_false] at ho
  rcases ho with (h|h|h|h|h|h|h|h)|(h|h|h|h) <;> subst h <;> omega
/-- C1: for every integer n, calculer_jours_fractionnement returns 0 when
n < 5, 1 when 5 <= n <= 7 and 2 when n >= 8; in particular 0 at 4, 1 at 5
and 7, 2 at 8 and 100. -/
theorem C1_seuils_fractionnement :
    (∀ n : Int,
      (n < 5 → calculer_jours_fractionnement n = 0) ∧
      (5 ≤ n ∧ n ≤ 7 → calculer_jours_fractionnement n = 1) ∧
      (8 ≤ n → calculer_jours_fractionnement n = 2)) ∧
    calculer_jours_fractionnement 4 = 0 ∧
    calculer_jours_fractionnement 5 = 1 ∧
    calculer_jours_fractionnement 7 = 1 ∧
    calculer_jours_fractionnement 8 = 2 ∧
    calculer_jours_fractionnement 100 = 2 := by
  refine ⟨fun n => ⟨fun h => ?_, fun h => ?_, fun h => ?_⟩,
    by decide, by decide, by decide, by decide, by decide⟩ <;>
    (unfold calculer_jours_fractionnement; split_ifs <;> omega)

/-- Witness for C1 at the concrete inputs 4, 6 and 9. -/
theorem C1_seuils_fractionnement_witness :
    calculer_jours_fractionnement 4 = 0 ∧ calculer_jours_fractionnement 6 = 1 ∧
    calculer_jours_fractionnement 9 = 2 :=
  ⟨(C1_seuils_fractionnement.1 4).1 (by norm_num),
   (C1_seuils_fractionnement.1 6).2.1 (by norm_num),
   (C1_seuils_fractionnement.1 9).2.2 (by norm_num)⟩

/-- C5: for every year, calculer_paques returns the date produced by the
Gauss congruence algorithm with the claimed intermediate values, and in
particular 2024-03-31 for 2024 and 2025-04-20 for 2025. -/
theorem C5_paques_gauss :
    (∀ annee : Nat,
      let y : Int := annee
      let a := y % 19
      let b := y / 100
      let c := y % 100
      let d := b / 4
      let e := b % 4
      let f := (b + 8) / 25
      let g := (b - f + 1) / 3
      let h := (19 * a + b - d - g + 15) % 30
      let i := c / 4
      let k := c % 4
      let l := (32 + 2 * e + 2 * i - h - k) % 7
      let m := (a + 11 * h + 22 * l) / 451
      let mois := (h + l - 7 * m + 114) / 31
      let jour := (h + l - 7 * m + 114) % 31 + 1
      calculer_paques annee = ⟨annee, mois.toNat, jour.toNat⟩) ∧
    calculer_paques 2024 = ⟨2024, 3, 31⟩ ∧
    calculer_paques 2025 = ⟨2025, 4, 20⟩ :=
  ⟨fun _ => rfl, by decide, by decide⟩

/-- C10: calculer_paques is total: for every positive year the computed
month is 3 or 4 and the day is a valid day of that month (at most 31 in
March, at most 25 in April), so the date construction never fails. -/
theorem C10_paques_totale (annee : Nat) (h1 : 1 ≤ annee) :
    (calculer_paques annee).Valid ∧
    ((calculer_paques annee).month = 3 ∨ (calculer_paques annee).month = 4) ∧
    ((calculer_paques annee).month = 3 → (calculer_paques annee).day ≤ 31) ∧
    ((calculer_paques annee).month = 4 → (calculer_paques annee).day ≤ 25) := by
  have hy : (calculer_paques annee).year = annee := calculer_paques_year annee
  rcases calculer_paques_cases annee with ⟨hm, hd1, hd2⟩ | ⟨hm, hd1, hd2⟩
  · unfold Date.Valid
    rw [hm, hy]
    have h31 : daysInMonth annee 3 = 31 := rfl
    exact ⟨⟨h1, by norm_num, by norm_num, hd1, by omega⟩, Or.inl rfl,
      fun _ => hd2, fun hc => absurd hc (by norm_num)⟩
  · unfold Date.Valid
    rw [hm, hy]
    have h30 : daysInMonth annee 4 = 30 := rfl
    exact ⟨⟨h1, by norm_num, by norm_num, hd1, by omega⟩, Or.inr rfl,
      fun hc => absurd hc (by norm_num), fun _ => hd2⟩

/-- Witness for C10 at year 2024. -/
theorem C10_paques_totale_witness :
    (calculer_paques 2024).Valid ∧
    ((calculer_paques 2024).month = 3 ∨ (calculer_paques 2024).month = 4) ∧
    ((calculer_paques 2024).month = 3 → (calculer_paques 2024).day ≤ 31) ∧
    ((calculer_paques 2024).month = 4 → (calculer_paques 2024).day ≤ 25) :=
  C10_paques_totale 2024 (by norm_num)

/-- C3: with one annual period 2024-11-04 (morning) to 2024-11-08
(morning), the per-period half-day count is 4.5, the returned whole-day
count is 4 and the award is 0; after adding 2024-11-08 (afternoon) to
2024-11-08 (afternoon) the count is 5 and the award is 1. -/
theorem C3_scenario_bout_en_bout :
    jours_hors_pour_periode "ouvres" 2024
      ⟨⟨2024,11,4⟩, "matin", ⟨2024,11,8⟩, "matin", "annuel", 2024⟩ = 9/2 ∧
    get_jours_hors_periode_principale none
      [⟨⟨2024,11,4⟩, "matin", ⟨2024,11,8⟩, "matin", "annuel", 2024⟩] 2024 = .ok 4 ∧
    calculer_jours_fractionnement 4 = 0 ∧
    get_jours_hors_periode_principale none
      [⟨⟨2024,11,4⟩, "matin", ⟨2024,11,8⟩, "matin", "annuel", 2024⟩,
       ⟨⟨2024,11,8⟩, "apres_midi", ⟨2024,11,8⟩, "apres_midi", "annuel", 2024⟩] 2024 = .ok 5 ∧
    calculer_jours_fractionnement 5 = 1 :=
  ⟨by with_unfolding_all decide, by with_unfolding_all rfl, by decide,
   by with_unfolding_all rfl, by decide⟩
/-- C6 (amended): for every year the holiday list has exactly 12 entries
(the 8 fixed holidays plus the 4 Easter-relative ones, as a permutation),
contains Jan 1 and lies entirely within the year; the number of distinct
dates can be 11 (see the counterexample). -/
theorem C6_feries_12_entrees (annee : Nat) :
    (get_jours_feries annee).length = 12 ∧
    (get_jours_feries annee).Perm
      (((get_jours_feries_fixes annee).map Date.toOrdinal) ++
        [(calculer_paques annee).toOrdinal, (calculer_paques annee).toOrdinal + 1,
         (calculer_paques annee).toOrdinal + 39, (calculer_paques annee).toOrdinal + 50]) ∧
    Date.toOrdinal ⟨annee, 1, 1⟩ ∈ get_jours_feries annee ∧
    ∀ o ∈ get_jours_feries annee,
      Date.toOrdinal ⟨annee, 1, 1⟩ ≤ o ∧ o ≤ Date.toOrdinal ⟨annee, 12, 31⟩ := by
  refine ⟨?_, ?_, ?_, fun o ho => jours_feries_range annee o ho⟩
  · unfold get_jours_feries
    simp [get_jours_feries_fixes]
  · unfold get_jours_feries
    exact List.mergeSort_perm _ _
  · unfold get_jours_feries
    simp [get_jours_feries_fixes]

/-- C6 counterexample: in 2008, Ascension (Easter + 39 days) falls on
May 1 and coincides with the fixed Labour Day holiday, so the 12-entry
holiday list contains only 11 distinct dates. -/
theorem C6_feries_contre_exemple :
    (calculer_paques 2008).toOrdinal + 39 = Date.toOrdinal ⟨2008, 5, 1⟩ ∧
    (get_jours_feries 2008).length = 12 ∧
    (get_jours_feries 2008).dedup.length = 11 := by
  refine ⟨by decide, by with_unfolding_all decide, by with_unfolding_all decide⟩

/-- C4 (amended): for every in-bounds year, when no ParametresAnnee record
exists the computation does not raise and silently uses the five-day
"ouvres" (workdays) default; the CycleHebdomadaire mode is never
consulted. -/
theorem C4_convention_par_defaut (periodes : List PeriodeConge) (annee : Nat)
    (hlo : 2020 ≤ annee) (hhi : annee ≤ 2100) :
    get_jours_hors_periode_principale none periodes annee =
      .ok (pyTrunc ((periodes.filter
        (fun p => p.annee_civile == annee && p.type_conge == "annuel")).foldl
          (fun acc p => acc + jours_hors_pour_periode "ouvres" annee p) 0)) := by
  have hcond : ¬ ((annee < ANNEE_MIN || annee > ANNEE_MAX) = true) := by
    simp [ANNEE_MIN, ANNEE_MAX]
    omega
  unfold get_jours_hors_periode_principale
  rw [if_neg hcond]

/-- Witness for C4 (amended) at year 2024 with no stored period. -/
theorem C4_convention_par_defaut_witness :
    get_jours_hors_periode_principale none [] 2024 =
      .ok (pyTrunc ((([] : List PeriodeConge).filter
        (fun p => p.annee_civile == 2024 && p.type_conge == "annuel")).foldl
          (fun acc p => acc + jours_hors_pour_periode "ouvres" 2024 p) 0)) :=
  C4_convention_par_defaut [] 2024 (by norm_num) (by norm_num)

/-- C4 counterexample: with no ParametresAnnee row and a CycleHebdomadaire
in mode "ouvrables", the claimed fallback chain resolves to "ouvrables",
but the code counts a Saturday-only annual period as 0 days (five-day
default) where the chain would count 1. -/
theorem C4_chaine_contre_exemple :
    resolution_convention_chaine none (some ⟨39, 1, "ouvrables"⟩) = "ouvrables" ∧
    get_jours_hors_periode_principale none
      [⟨⟨2024,11,2⟩, "matin", ⟨2024,11,2⟩, "apres_midi", "annuel", 2024⟩] 2024 = .ok 0 ∧
    get_jours_hors_selon_chaine none (some ⟨39, 1, "ouvrables"⟩)
      [⟨⟨2024,11,2⟩, "matin", ⟨2024,11,2⟩, "apres_midi", "annuel", 2024⟩] 2024 = .ok 1 :=
  ⟨rfl, by with_unfolding_all rfl, by with_unfolding_all rfl⟩

/-- C7: the invalid-year error is raised exactly for years outside
2020..2100; inside the bounds the call returns a value, and
calculer_fractionnement_complet propagates the error unchanged. -/
theorem C7_bornes_annee (parametres : Option ParametresAnnee)
    (periodes : List PeriodeConge) (annee : Nat) :
    (get_jours_hors_periode_principale parametres periodes annee =
        .error (annee_invalide_msg annee) ↔
      annee < ANNEE_MIN ∨ ANNEE_MAX < annee) ∧
    (ANNEE_MIN ≤ annee ∧ annee ≤ ANNEE_MAX →
      (get_jours_hors_periode_principale parametres periodes annee).isOk = true) ∧
    ∀ e, get_jours_hors_periode_principale parametres periodes annee = .error e →
      calculer_fractionnement_complet parametres periodes annee = .error e := by
  refine ⟨⟨fun he => ?_, fun hc => ?_⟩, fun hin => ?_, fun e he => ?_⟩
  · by_contra hc
    have hcond : ¬ ((annee < ANNEE_MIN || annee > ANNEE_MAX) = true) := by
      simp only [Bool.or_eq_true, decide_eq_true_eq, ANNEE_MIN, ANNEE_MAX] at *
      omega
    unfold get_jours_hors_periode_principale at he
    rw [if_neg hcond] at he
    exact absurd he (by simp)
  · have hcond : (annee < ANNEE_MIN || annee > ANNEE_MAX) = true := by
      simp only [Bool.or_eq_true, decide_eq_true_eq, ANNEE_MIN, ANNEE_MAX] at *
      omega
    unfold get_jours_hors_periode_principale
    rw [if_pos hcond]
  · have hcond : ¬ ((annee < ANNEE_MIN || annee > ANNEE_MAX) = true) := by
      simp only [Bool.or_eq_true, decide_eq_true_eq, ANNEE_MIN, ANNEE_MAX] at *
      omega
    unfold get_jours_hors_periode_principale
    rw [if_neg hcond]
    rfl
  · unfold calculer_fractionnement_complet
    rw [he]

/-- Witness for C7: year 2024 is accepted, year 2019 raises and the error
propagates through calculer_fractionnement_complet. -/
theorem C7_bornes_annee_witness :
    (get_jours_hors_periode_principale none [] 2024).isOk = true ∧
    calculer_fractionnement_complet none [] 2019 = .error (annee_invalide_msg 2019) :=
  ⟨(C7_bornes_annee none [] 2024).2.1 ⟨by decide, by decide⟩,
   (C7_bornes_annee none [] 2019).2.2 (annee_invalide_msg 2019)
     ((C7_bornes_annee none [] 2019).1.mpr (by decide))⟩
/-- Evaluation of the half-day counter when both end dates are counted
under the mode and are not excluded holidays: the full-day count minus
the two half-day adjustments, clamped at 0. -/
lemma compter_jours_periode_eval (mode : String) (dd df : Date)
    (annee : Option Nat) (dt ft : String)
    (hdd : (if mode == "ouvrables" then est_jour_ouvrable dd.toOrdinal
            else est_jour_ouvre dd.toOrdinal) = true)
    (hdf : (if mode == "ouvrables" then est_jour_ouvrable df.toOrdinal
            else est_jour_ouvre df.toOrdinal) = true)
    (hfd : (get_jours_feries (annee.getD dd.year)).contains dd.toOrdinal = false)
    (hff : (get_jours_feries (annee.getD dd.year)).contains df.toOrdinal = false) :
    compter_jours_periode dd df mode true annee dt ft =
      max 0 ((((if mode == "ouvrables" then
                compter_jours_ouvrables dd df true (some (annee.getD dd.year))
              else
                compter_jours_ouvres dd df true (some (annee.getD dd.year))) : Nat) : ℚ)
        - (if dt == "apres_midi" then 1/2 else 0)
        - (if ft == "matin" then 1/2 else 0)) := by
  unfold compter_jours_periode
  simp only [Bool.not_eq_true] at *
  by_cases hm : (mode == "ouvrables") = true <;>
    simp only [hm, if_true, if_false, Bool.false_eq_true] at hdd hdf ⊢ <;>
    simp at hfd hff <;>
    by_cases hdt : dt = "apres_midi" <;>
      by_cases hft : ft = "matin" <;>
      simp [hdt, hft, hfd, hff, hdd, hdf]

/-- A single counted, non-holiday day contributes exactly 1 to the
five-day counter. -/
lemma compter_jours_ouvres_single (D : Date) (a : Nat)
    (hD : est_jour_ouvre D.toOrdinal = true)
    (hf : (get_jours_feries a).contains D.toOrdinal = false) :
    compter_jours_ouvres D D true (some a) = 1 := by
  unfold compter_jours_ouvres
  simp only [Option.getD_some, if_true]
  have hlen : D.toOrdinal + 1 - D.toOrdinal = 1 := by omega
  simp at hf
  rw [hlen, countFrom_one]
  simp [hD, hf]

/-- A single counted, non-holiday day contributes exactly 1 to the
six-day counter. -/
lemma compter_jours_ouvrables_single (D : Date) (a : Nat)
    (hD : est_jour_ouvrable D.toOrdinal = true)
    (hf : (get_jours_feries a).contains D.toOrdinal = false) :
    compter_jours_ouvrables D D true (some a) = 1 := by
  unfold compter_jours_ouvrables
  simp only [Option.getD_some, if_true]
  have hlen : D.toOrdinal + 1 - D.toOrdinal = 1 := by omega
  simp at hf
  rw [hlen, countFrom_one]
  simp [hD, hf]

/-- Two consecutive counted, non-holiday days contribute exactly 2 to the
five-day counter. -/
lemma compter_jours_ouvres_pair (D D2 : Date) (a : Nat)
    (hord : D2.toOrdinal = D.toOrdinal + 1)
    (h1 : est_jour_ouvre D.toOrdinal = true)
    (h2 : est_jour_ouvre D2.toOrdinal = true)
    (hf1 : (get_jours_feries a).contains D.toOrdinal = false)
    (hf2 : (get_jours_feries a).contains D2.toOrdinal = false) :
    compter_jours_ouvres D D2 true (some a) = 2 := by
  unfold compter_jours_ouvres
  simp only [Option.getD_some, if_true]
  rw [hord] at h2 hf2 ⊢
  have hlen : D.toOrdinal + 1 + 1 - D.toOrdinal = 1 + 1 := by omega
  simp at hf1 hf2
  rw [hlen, countFrom_add 1 _ 1, countFrom_one, countFrom_one]
  simp [h1, h2, hf1, hf2]

/-- Two consecutive counted, non-holiday days contribute exactly 2 to the
six-day counter. -/
lemma compter_jours_ouvrables_pair (D D2 : Date) (a : Nat)
    (hord : D2.toOrdinal = D.toOrdinal + 1)
    (h1 : est_jour_ouvrable D.toOrdinal = true)
    (h2 : est_jour_ouvrable D2.toOrdinal = true)
    (hf1 : (get_jours_feries a).contains D.toOrdinal = false)
    (hf2 : (get_jours_feries a).contains D2.toOrdinal = false) :
    compter_jours_ouvrables D D2 true (some a) = 2 := by
  unfold compter_jours_ouvrables
  simp only [Option.getD_some, if_true]
  rw [hord] at h2 hf2 ⊢
  have hlen : D.toOrdinal + 1 + 1 - D.toOrdinal = 1 + 1 := by omega
  simp at hf1 hf2
  rw [hlen, countFrom_add 1 _ 1, countFrom_one, countFrom_one]
  simp [h1, h2, hf1, hf2]

/-- C2: for a single calendar day that is a counted day under the chosen
mode and not an excluded holiday, the period counter returns 0.5 for
morning/morning, 0.5 for afternoon/afternoon and 1.0 for
morning/afternoon; and for two consecutive counted days, an
afternoon-start/morning-end period counts 1.0. -/
theorem C2_lois_demi_journees (mode : String) (D D2 : Date) (annee : Option Nat)
    (hD : (if mode == "ouvrables" then est_jour_ouvrable D.toOrdinal
           else est_jour_ouvre D.toOrdinal) = true)
    (hferie : (get_jours_feries (annee.getD D.year)).contains D.toOrdinal = false) :
    compter_jours_periode D D mode true annee "matin" "matin" = 1/2 ∧
    compter_jours_periode D D mode true annee "apres_midi" "apres_midi" = 1/2 ∧
    compter_jours_periode D D mode true annee "matin" "apres_midi" = 1 ∧
    (D2.toOrdinal = D.toOrdinal + 1 →
      (if mode == "ouvrables" then est_jour_ouvrable D2.toOrdinal
       else est_jour_ouvre D2.toOrdinal) = true →
      (get_jours_feries (annee.getD D.year)).contains D2.toOrdinal = false →
      compter_jours_periode D D2 mode true annee "apres_midi" "matin" = 1) := by
  have s_mm : (("matin" : String) == "apres_midi") = false := by decide
  have s_m : (("matin" : String) == "matin") = true := by decide
  have s_aa : (("apres_midi" : String) == "apres_midi") = true := by decide
  have s_am : (("apres_midi" : String) == "matin") = false := by decide
  have hcnt : (if mode == "ouvrables" then
      compter_jours_ouvrables D D true (some (annee.getD D.year))
    else compter_jours_ouvres D D true (some (annee.getD D.year))) = 1 := by
    by_cases hm : (mode == "ouvrables") = true <;>
      simp only [hm, if_true, if_false, Bool.false_eq_true] at hD ⊢
    · exact compter_jours_ouvrables_single D _ hD hferie
    · exact compter_jours_ouvres_single D _ hD hferie
  refine ⟨?_, ?_, ?_, fun hord hD2 hferie2 => ?_⟩
  · rw [compter_jours_periode_eval mode D D annee "matin" "matin" hD hD hferie hferie,
      hcnt]
    simp only [s_mm, s_m, if_true, if_false, Bool.false_eq_true]
    rw [max_eq_right (by norm_num)]
    norm_num
  · rw [compter_jours_periode_eval mode D D annee "apres_midi" "apres_midi" hD hD
      hferie hferie, hcnt]
    simp only [s_aa, s_am, if_true, if_false, Bool.false_eq_true]
    rw [max_eq_right (by norm_num)]
    norm_num
  · rw [compter_jours_periode_eval mode D D annee "matin" "apres_midi" hD hD
      hferie hferie, hcnt]
    simp only [s_mm, s_aa, s_m, s_am, if_true, if_false, Bool.false_eq_true]
    rw [max_eq_right (by norm_num)]
    norm_num
  · have hcnt2 : (if mode == "ouvrables" then
        compter_jours_ouvrables D D2 true (some (annee.getD D.year))
      else compter_jours_ouvres D D2 true (some (annee.getD D.year))) = 2 := by
      by_cases hm : (mode == "ouvrables") = true <;>
        simp only [hm, if_true, if_false, Bool.false_eq_true] at hD hD2 ⊢
      · exact compter_jours_ouvrables_pair D D2 _ hord hD hD2 hferie hferie2
      · exact compter_jours_ouvres_pair D D2 _ hord hD hD2 hferie hferie2
    rw [compter_jours_periode_eval mode D D2 annee "apres_midi" "matin" hD hD2
      hferie hferie2, hcnt2]
    simp only [s_aa, s_am, s_m, if_true, if_false, Bool.false_eq_true]
    rw [max_eq_right (by norm_num)]
    norm_num

/-- Witness for C2: Monday 2024-11-04 and Tuesday 2024-11-05 under the
default five-day mode, year 2024. -/
theorem C2_lois_demi_journees_witness :
    compter_jours_periode ⟨2024,11,4⟩ ⟨2024,11,4⟩ "ouvres" true (some 2024)
      "matin" "matin" = 1/2 ∧
    compter_jours_periode ⟨2024,11,4⟩ ⟨2024,11,4⟩ "ouvres" true (some 2024)
      "apres_midi" "apres_midi" = 1/2 ∧
    compter_jours_periode ⟨2024,11,4⟩ ⟨2024,11,4⟩ "ouvres" true (some 2024)
      "matin" "apres_midi" = 1 ∧
    compter_jours_periode ⟨2024,11,4⟩ ⟨2024,11,5⟩ "ouvres" true (some 2024)
      "apres_midi" "matin" = 1 := by
  have h := C2_lois_demi_journees "ouvres" ⟨2024,11,4⟩ ⟨2024,11,5⟩ (some 2024)
    (by decide) (by with_unfolding_all decide)
  exact ⟨h.1, h.2.1, h.2.2.1,
    h.2.2.2 (by decide) (by decide) (by with_unfolding_all decide)⟩
/-- One-step unfolding of the counting loop. -/
lemma countFrom_succ (lo n : Nat) (p : Nat → Bool) :
    countFrom lo (n + 1) p = (if p lo then 1 else 0) + countFrom (lo + 1) n p := rfl

/-- Splitting the Dec 20 (year Y) .. Jan 5 (year Y+1) scan at the year
boundary, for any day predicate conjoined with the year-Y holiday
filter. -/
lemma countFrom_coupure_annee (Y : Nat) (hY : 1 ≤ Y) (pb : Nat → Bool)
    (hnotin : Date.toOrdinal ⟨Y + 1, 1, 1⟩ ∉ get_jours_feries Y) :
    countFrom (Date.toOrdinal ⟨Y, 12, 20⟩)
        (Date.toOrdinal ⟨Y + 1, 1, 5⟩ + 1 - Date.toOrdinal ⟨Y, 12, 20⟩)
        (fun n => pb n && !((get_jours_feries Y).contains n)) =
      countFrom (Date.toOrdinal ⟨Y, 12, 20⟩)
        (Date.toOrdinal ⟨Y, 12, 31⟩ + 1 - Date.toOrdinal ⟨Y, 12, 20⟩)
        (fun n => pb n && !((get_jours_feries Y).contains n)) +
      ((if pb (Date.toOrdinal ⟨Y + 1, 1, 1⟩) then 1 else 0) +
        countFrom (Date.toOrdinal ⟨Y + 1, 1, 2⟩)
          (Date.toOrdinal ⟨Y + 1, 1, 5⟩ + 1 - Date.toOrdinal ⟨Y + 1, 1, 2⟩)
          (fun n => pb n && !((get_jours_feries Y).contains n))) := by
  have eSucc := daysBeforeYear_succ Y hY
  have e20 : Date.toOrdinal ⟨Y, 12, 20⟩ =
      daysBeforeYear Y + (334 + (if isLeap Y then 1 else 0)) + 20 := rfl
  have e31 : Date.toOrdinal ⟨Y, 12, 31⟩ =
      daysBeforeYear Y + (334 + (if isLeap Y then 1 else 0)) + 31 := rfl
  have eJ1 : Date.toOrdinal ⟨Y + 1, 1, 1⟩ = daysBeforeYear (Y + 1) + 0 + 1 := rfl
  have eJ2 : Date.toOrdinal ⟨Y + 1, 1, 2⟩ = daysBeforeYear (Y + 1) + 0 + 2 := rfl
  have eJ5 : Date.toOrdinal ⟨Y + 1, 1, 5⟩ = daysBeforeYear (Y + 1) + 0 + 5 := rfl
  have hlen17 : Date.toOrdinal ⟨Y + 1, 1, 5⟩ + 1 - Date.toOrdinal ⟨Y, 12, 20⟩ = 12 + 5 := by
    rw [e20, eJ5, eSucc]; omega
  have hlen12 : Date.toOrdinal ⟨Y, 12, 31⟩ + 1 - Date.toOrdinal ⟨Y, 12, 20⟩ = 12 := by
    rw [e20, e31]; omega
  have hlen4 : Date.toOrdinal ⟨Y + 1, 1, 5⟩ + 1 - Date.toOrdinal ⟨Y + 1, 1, 2⟩ = 4 := by
    rw [eJ2, eJ5]; omega
  have hmid : Date.toOrdinal ⟨Y, 12, 20⟩ + 12 = Date.toOrdinal ⟨Y + 1, 1, 1⟩ := by
    rw [e20, eJ1, eSucc]; omega
  have hnext : Date.toOrdinal ⟨Y + 1, 1, 1⟩ + 1 = Date.toOrdinal ⟨Y + 1, 1, 2⟩ := by
    rw [eJ1, eJ2]
  have hcont : (get_jours_feries Y).contains (Date.toOrdinal ⟨Y + 1, 1, 1⟩) = false :=
    Bool.eq_false_iff.mpr (fun hc => hnotin (List.elem_iff.mp hc))
  rw [hlen17, hlen12, hlen4, countFrom_add 12, hmid,
    show (5 : Nat) = 4 + 1 from rfl]
  congr 1
  rw [countFrom_succ, hnext]
  simp [hnotin]

/-- C8: with holiday exclusion and an explicit year Y, only the holidays
of year Y are excluded even across a year boundary: for the range
Dec 20 of Y .. Jan 5 of Y+1, Jan 1 of Y+1 is not among the excluded
dates, the count splits at the year boundary, and Jan 1 of Y+1 is counted
exactly when it is a weekday under the chosen convention. -/
theorem C8_exclusion_annee_explicite (Y : Nat) (hY : 1 ≤ Y) :
    Date.toOrdinal ⟨Y + 1, 1, 1⟩ ∉ get_jours_feries Y ∧
    compter_jours_ouvres ⟨Y, 12, 20⟩ ⟨Y + 1, 1, 5⟩ true (some Y) =
      compter_jours_ouvres ⟨Y, 12, 20⟩ ⟨Y, 12, 31⟩ true (some Y) +
      ((if est_jour_ouvre (Date.toOrdinal ⟨Y + 1, 1, 1⟩) then 1 else 0) +
        compter_jours_ouvres ⟨Y + 1, 1, 2⟩ ⟨Y + 1, 1, 5⟩ true (some Y)) ∧
    compter_jours_ouvrables ⟨Y, 12, 20⟩ ⟨Y + 1, 1, 5⟩ true (some Y) =
      compter_jours_ouvrables ⟨Y, 12, 20⟩ ⟨Y, 12, 31⟩ true (some Y) +
      ((if est_jour_ouvrable (Date.toOrdinal ⟨Y + 1, 1, 1⟩) then 1 else 0) +
        compter_jours_ouvrables ⟨Y + 1, 1, 2⟩ ⟨Y + 1, 1, 5⟩ true (some Y)) := by
  have eSucc := daysBeforeYear_succ Y hY
  have e31 : Date.toOrdinal ⟨Y, 12, 31⟩ =
      daysBeforeYear Y + (334 + (if isLeap Y then 1 else 0)) + 31 := rfl
  have eJ1 : Date.toOrdinal ⟨Y + 1, 1, 1⟩ = daysBeforeYear (Y + 1) + 0 + 1 := rfl
  have e11 : Date.toOrdinal ⟨Y, 1, 1⟩ = daysBeforeYear Y + 0 + 1 := rfl
  have hnotin : Date.toOrdinal ⟨Y + 1, 1, 1⟩ ∉ get_jours_feries Y := by
    intro hmem
    have hrange := jours_feries_range Y _ hmem
    rw [e11, e31, eJ1, eSucc] at hrange
    omega
  refine ⟨hnotin, ?_, ?_⟩
  · unfold compter_jours_ouvres
    simp only [Option.getD_some, if_true]
    exact countFrom_coupure_annee Y hY est_jour_ouvre hnotin
  · unfold compter_jours_ouvrables
    simp only [Option.getD_some, if_true]
    exact countFrom_coupure_annee Y hY est_jour_ouvrable hnotin

/-- Witness for C8 at Y = 2024. -/
theorem C8_exclusion_annee_explicite_witness :
    Date.toOrdinal ⟨2025, 1, 1⟩ ∉ get_jours_feries 2024 ∧
    compter_jours_ouvres ⟨2024, 12, 20⟩ ⟨2025, 1, 5⟩ true (some 2024) =
      compter_jours_ouvres ⟨2024, 12, 20⟩ ⟨2024, 12, 31⟩ true (some 2024) +
      ((if est_jour_ouvre (Date.toOrdinal ⟨2025, 1, 1⟩) then 1 else 0) +
        compter_jours_ouvres ⟨2025, 1, 2⟩ ⟨2025, 1, 5⟩ true (some 2024)) ∧
    compter_jours_ouvrables ⟨2024, 12, 20⟩ ⟨2025, 1, 5⟩ true (some 2024) =
      compter_jours_ouvrables ⟨2024, 12, 20⟩ ⟨2024, 12, 31⟩ true (some 2024) +
      ((if est_jour_ouvrable (Date.toOrdinal ⟨2025, 1, 1⟩) then 1 else 0) +
        compter_jours_ouvrables ⟨2025, 1, 2⟩ ⟨2025, 1, 5⟩ true (some 2024)) :=
  C8_exclusion_annee_explicite 2024 (by norm_num)
/-- Round-half-to-even is at most a half above the value. -/
lemma roundHalfEven_le (q : ℚ) : (roundHalfEven q : ℚ) ≤ q + 1/2 := by
  have h1 : (⌊q⌋ : ℚ) ≤ q := Int.floor_le q
  have h2 : q < ⌊q⌋ + 1 := Int.lt_floor_add_one q
  simp only [roundHalfEven]
  split_ifs <;> push_cast <;> linarith

/-- Round-half-to-even is at least a half below the value. -/
lemma le_roundHalfEven (q : ℚ) : q - 1/2 ≤ (roundHalfEven q : ℚ) := by
  have h1 : (⌊q⌋ : ℚ) ≤ q := Int.floor_le q
  have h2 : q < ⌊q⌋ + 1 := Int.lt_floor_add_one q
  simp only [roundHalfEven]
  split_ifs <;> push_cast <;> linarith

/-- Above 35 hours the RTT count is the rounded prorated excess. -/
lemma calculer_rtt_annuels_of_gt (h q : ℚ) (hh : 35 < h) :
    calculer_rtt_annuels h q =
      roundHalfEven ((h * (SEMAINES_ANNUELLES : ℚ) - (DUREE_LEGALE_ANNUELLE : ℚ)) / h * q) := by
  unfold calculer_rtt_annuels
  rw [if_neg, if_neg]
  · unfold SEMAINES_ANNUELLES DUREE_LEGALE_ANNUELLE
    push_cast
    intro hc
    nlinarith
  · unfold HEURES_SEMAINE_MIN
    intro hc
    linarith

/-- C9: 0 at 35 hours or below, otherwise the rounded value of
((h * 52 - 1607) / h) * quota; 11 RTT at 39 hours full time; and for
fixed h > 35 the value at quota 1.0 dominates the value at quota 0.5. -/
theorem C9_rtt_annuels (h q : ℚ) :
    (h ≤ 35 → calculer_rtt_annuels h q = 0) ∧
    (35 < h → calculer_rtt_annuels h q = roundHalfEven ((h * 52 - 1607) / h * q)) ∧
    calculer_rtt_annuels 39 1 = 11 ∧
    (35 < h → calculer_rtt_annuels h (1/2) ≤ calculer_rtt_annuels h 1) := by
  refine ⟨fun hle => ?_, fun hgt => ?_, ?_, fun hgt => ?_⟩
  · unfold calculer_rtt_annuels HEURES_SEMAINE_MIN
    rw [if_pos hle]
  · rw [calculer_rtt_annuels_of_gt h q hgt]
    norm_num [SEMAINES_ANNUELLES, DUREE_LEGALE_ANNUELLE]
  · with_unfolding_all decide
  · have hpos : (0 : ℚ) < h := by linarith
    rw [calculer_rtt_annuels_of_gt h 1 hgt, calculer_rtt_annuels_of_gt h (1/2) hgt]
    set r : ℚ := (h * (SEMAINES_ANNUELLES : ℚ) - (DUREE_LEGALE_ANNUELLE : ℚ)) / h with hr
    have hr2 : 2 ≤ r := by
      rw [hr, le_div_iff₀ hpos]
      unfold SEMAINES_ANNUELLES DUREE_LEGALE_ANNUELLE
      push_cast
      linarith
    have hup := roundHalfEven_le (r * (1/2))
    have hlow := le_roundHalfEven (r * 1)
    have : (roundHalfEven (r * (1/2)) : ℚ) ≤ (roundHalfEven (r * 1) : ℚ) := by
      linarith
    exact_mod_cast this

/-- Witness for C9 at 35 and 39 hours. -/
theorem C9_rtt_annuels_witness :
    calculer_rtt_annuels 35 1 = 0 ∧
    calculer_rtt_annuels 39 1 = roundHalfEven ((39 * 52 - 1607) / 39 * 1) ∧
    calculer_rtt_annuels 39 1 = 11 ∧
    calculer_rtt_annuels 39 (1/2) ≤ calculer_rtt_annuels 39 1 :=
  ⟨(C9_rtt_annuels 35 1).1 (by norm_num),
   (C9_rtt_annuels 39 1).2.1 (by norm_num),
   (C9_rtt_annuels 39 1).2.2.1,
   (C9_rtt_annuels 39 1).2.2.2 (by norm_num)⟩
end MyCCSA
